import Mathlib

/-!
Shallow embedding of the business/review CRUD service in `mydocker/main.py`.

The relational store is modelled as an explicit `Store` value: the two tables
are lists of rows, and the MySQL `AUTO_INCREMENT` counters are carried as
`nextBusinessId` / `nextReviewId`.  Each Flask handler becomes a pure function
from its inputs (URL root, path/query parameters, parsed JSON body, store) to
`Option (Response × Store)`:

* `some (body, status, store')` models the handler returning the Flask tuple
  `(body, status)` with the store left in state `store'`;
* `none` models an exception escaping the handler uncaught (the handler has no
  `try/except`, so Flask's default error machinery takes over — no JSON body of
  the handler's making is produced).

A `fail : Bool` argument models whether the store raises an exception on the
first statement executed inside the handler's `with db.connect()` block
(`False` = every statement succeeds).  JSON request bodies are records of
`Option` fields — `none` models a key absent from the posted object, matching
the `if field not in content` checks.  JSON responses are `JVal` values whose
object fields are listed in Python dict insertion order.
-/

/-- JSON-like values, as produced by the Flask handlers. -/
inductive JVal where
  | null : JVal
  | num : Int → JVal
  | str : String → JVal
  | arr : List JVal → JVal
  | obj : List (String × JVal) → JVal

/-- A business row (`businesses` table). -/
structure Business where
  business_id : Nat
  owner_id : Int
  name : String
  street_address : String
  city : String
  state : String
  zip_code : Int
deriving DecidableEq

/-- A review row (`reviews` table). -/
structure Review where
  review_id : Nat
  user_id : Int
  business_id : Nat
  stars : Int
  review_text : String
deriving DecidableEq

/-- The relational store: both tables plus the auto-increment counters. -/
structure Store where
  businesses : List Business
  reviews : List Review
  nextBusinessId : Nat
  nextReviewId : Nat
deriving DecidableEq

/-- Parsed JSON body of a create/update business request; `none` = key absent. -/
structure BusinessBody where
  owner_id : Option Int
  name : Option String
  street_address : Option String
  city : Option String
  state : Option String
  zip_code : Option Int

/-- Parsed JSON body of a create review request; `none` = key absent. -/
structure ReviewBody where
  user_id : Option Int
  business_id : Option Nat
  stars : Option Int
  review_text : Option String

/-- Parsed JSON body of an edit review request; the handler never reads
`user_id`, it is carried only to express that it is not user-suppliable. -/
structure ReviewEditBody where
  user_id : Option Int
  stars : Option Int
  review_text : Option String

def BUSINESSES : String := "businesses"
def REVIEWS : String := "reviews"

def BUSINESS_NOT_FOUND : JVal :=
  .obj [("Error", .str "No business with this business_id exists")]
def REVIEW_NOT_FOUND : JVal :=
  .obj [("Error", .str "No review with this review_id exists")]
def MISSING_ATTR : JVal :=
  .obj [("Error", .str "The request body is missing at least one of the required attributes")]
def UNABLE_CREATE : JVal :=
  .obj [("Error", .str "Unable to create lodging")]
def DUPLICATE_REVIEW : JVal :=
  .obj [("Error", .str "You have already submitted a review for this business. You can update your previous review, or delete it and submit a new review")]

/-- `request.host_url/url_root + 'businesses/' + str(id)`. -/
def businessUrl (root : String) (id : Nat) : String :=
  root ++ BUSINESSES ++ "/" ++ toString id

/-- `request.host_url/url_root + 'reviews/' + str(id)`. -/
def reviewUrl (root : String) (id : Nat) : String :=
  root ++ REVIEWS ++ "/" ++ toString id

/-- The business record dict shape `{id, owner_id, name, street_address, city,
state, zip_code, self}` shared by create/update/list responses. -/
def businessRecord (root : String) (b : Business) : JVal :=
  .obj [("id", .num b.business_id),
        ("owner_id", .num b.owner_id),
        ("name", .str b.name),
        ("street_address", .str b.street_address),
        ("city", .str b.city),
        ("state", .str b.state),
        ("zip_code", .num b.zip_code),
        ("self", .str (businessUrl root b.business_id))]

/-- A handler outcome: `none` = an exception escaped the handler uncaught. -/
abbrev HResult := Option ((JVal × Nat) × Store)

/-- `POST /businesses` (`create_business`): checks the six required fields in
order, inserts a row with the generated id, and echoes the record with a
`self` URL; store exceptions are caught and turned into a fixed 500. -/
def create_business (root : String) (body : BusinessBody) (fail : Bool)
    (st : Store) : HResult :=
  match body.owner_id with
  | none => some ((MISSING_ATTR, 400), st)
  | some o =>
  match body.name with
  | none => some ((MISSING_ATTR, 400), st)
  | some nm =>
  match body.street_address with
  | none => some ((MISSING_ATTR, 400), st)
  | some sa =>
  match body.city with
  | none => some ((MISSING_ATTR, 400), st)
  | some ci =>
  match body.state with
  | none => some ((MISSING_ATTR, 400), st)
  | some sta =>
  match body.zip_code with
  | none => some ((MISSING_ATTR, 400), st)
  | some z =>
  if fail then some ((UNABLE_CREATE, 500), st)
  else
    let b : Business := ⟨st.nextBusinessId, o, nm, sa, ci, sta, z⟩
    let st' : Store := { st with businesses := st.businesses ++ [b],
                                 nextBusinessId := st.nextBusinessId + 1 }
    some ((businessRecord root b, 201), st')

/-- `GET /businesses/<id>` (`get_business`): primary-key lookup; the row dict
has `business_id` deleted and `id`/`self` appended, in that order. -/
def get_business (root : String) (id : Nat) (fail : Bool) (st : Store) :
    HResult :=
  if fail then none
  else
    match st.businesses.find? (fun b => b.business_id == id) with
    | none => some ((BUSINESS_NOT_FOUND, 404), st)
    | some b =>
      some ((.obj [("owner_id", .num b.owner_id),
                   ("name", .str b.name),
                   ("street_address", .str b.street_address),
                   ("city", .str b.city),
                   ("state", .str b.state),
                   ("zip_code", .num b.zip_code),
                   ("id", .num id),
                   ("self", .str (businessUrl root id))], 200), st)

/-- Insertion step of the model of SQL `ORDER BY business_id`. -/
def insertById (b : Business) : List Business → List Business
  | [] => [b]
  | c :: cs =>
    if b.business_id ≤ c.business_id then b :: c :: cs else c :: insertById b cs

/-- Model of SQL `ORDER BY business_id` (ascending, stable not required:
primary-key values are distinct). -/
def sortById (l : List Business) : List Business :=
  l.foldr insertById []

/-- The `next` pagination URL built by `get_all_businesses`. -/
def nextUrl (root : String) (limit offset : Nat) : String :=
  root ++ BUSINESSES ++ "?limit=" ++ toString limit ++ "&offset=" ++ toString offset

/-- `GET /businesses?offset=&limit=` (`get_all_businesses`): page of the
id-ordered table (`LIMIT limit OFFSET offset`), with a `next` URL unless the
page came back shorter than `limit`. -/
def get_all_businesses (root : String) (offset limit : Nat) (fail : Bool)
    (st : Store) : HResult :=
  if fail then none
  else
    let rows := ((sortById st.businesses).drop offset).take limit
    let entries := rows.map (businessRecord root)
    let nxt : JVal :=
      if entries.length < limit then .null
      else .str (nextUrl root limit (offset + limit))
    some ((.obj [("entries", .arr entries), ("next", nxt)], 200), st)

/-- `PUT /businesses/<id>` (`edit_business`): same required-field check as
create, then existence check, then an UPDATE of all six fields.  No
`try/except`: a store exception escapes the handler. -/
def edit_business (root : String) (id : Nat) (body : BusinessBody)
    (fail : Bool) (st : Store) : HResult :=
  match body.owner_id with
  | none => some ((MISSING_ATTR, 400), st)
  | some o =>
  match body.name with
  | none => some ((MISSING_ATTR, 400), st)
  | some nm =>
  match body.street_address with
  | none => some ((MISSING_ATTR, 400), st)
  | some sa =>
  match body.city with
  | none => some ((MISSING_ATTR, 400), st)
  | some ci =>
  match body.state with
  | none => some ((MISSING_ATTR, 400), st)
  | some sta =>
  match body.zip_code with
  | none => some ((MISSING_ATTR, 400), st)
  | some z =>
  if fail then none
  else
    match st.businesses.find? (fun b => b.business_id == id) with
    | none => some ((BUSINESS_NOT_FOUND, 404), st)
    | some _ =>
      let upd : Business := ⟨id, o, nm, sa, ci, sta, z⟩
      let st' : Store :=
        { st with businesses :=
            st.businesses.map (fun b => if b.business_id == id then upd else b) }
      some ((businessRecord root upd, 200), st')

/-- `DELETE /businesses/<id>` (`delete_lodging`): a bare DELETE; existence is
decided by `rowcount == 1`.  The store cascades the reviews of each deleted
business.  No `try/except`. -/
def delete_lodging (id : Nat) (fail : Bool) (st : Store) : HResult :=
  if fail then none
  else
    let removed := (st.businesses.filter (fun b => b.business_id == id)).length
    let st' : Store :=
      { st with businesses := st.businesses.filter (fun b => !(b.business_id == id)),
                reviews :=
                  if removed == 0 then st.reviews
                  else st.reviews.filter (fun r => !(r.business_id == id)) }
    if removed == 1 then some ((.str "", 204), st')
    else some ((BUSINESS_NOT_FOUND, 404), st')

/-- `POST /reviews` (`create_review`): required fields, then — each as its own
query — business-existence check (404) and duplicate-review check (409), then
the insert; store exceptions are caught and turned into a fixed 500. -/
def create_review (root : String) (body : ReviewBody) (fail : Bool)
    (st : Store) : HResult :=
  match body.user_id with
  | none => some ((MISSING_ATTR, 400), st)
  | some u =>
  match body.business_id with
  | none => some ((MISSING_ATTR, 400), st)
  | some bid =>
  match body.stars with
  | none => some ((MISSING_ATTR, 400), st)
  | some s =>
  if fail then some ((UNABLE_CREATE, 500), st)
  else if !(st.businesses.any (fun b => b.business_id == bid)) then
    some ((BUSINESS_NOT_FOUND, 404), st)
  else if st.reviews.any (fun r => r.business_id == bid && r.user_id == u) then
    some ((DUPLICATE_REVIEW, 409), st)
  else
    let rt := body.review_text.getD ""
    let rv : Review := ⟨st.nextReviewId, u, bid, s, rt⟩
    let st' : Store := { st with reviews := st.reviews ++ [rv],
                                 nextReviewId := st.nextReviewId + 1 }
    some ((.obj [("id", .num st.nextReviewId),
                 ("user_id", .num u),
                 ("business", .str (businessUrl root bid)),
                 ("stars", .num s),
                 ("review_text", .str rt),
                 ("self", .str (reviewUrl root st.nextReviewId))], 201), st')

/-- `PUT /reviews/<id>` (`edit_review`): `stars` is required; `review_text`
falls back to the stored row's value; the response's `user_id` comes from the
stored row, never the body.  No `try/except`. -/
def edit_review (root : String) (id : Nat) (body : ReviewEditBody)
    (fail : Bool) (st : Store) : HResult :=
  match body.stars with
  | none => some ((MISSING_ATTR, 400), st)
  | some s =>
  if fail then none
  else
    match st.reviews.find? (fun r => r.review_id == id) with
    | none => some ((REVIEW_NOT_FOUND, 404), st)
    | some row =>
      let rt := body.review_text.getD row.review_text
      let st' : Store :=
        { st with reviews :=
            st.reviews.map (fun r =>
              if r.review_id == id then { r with stars := s, review_text := rt }
              else r) }
      some ((.obj [("id", .num id),
                   ("user_id", .num row.user_id),
                   ("business", .str (businessUrl root row.business_id)),
                   ("stars", .num s),
                   ("review_text", .str rt),
                   ("self", .str (reviewUrl root id))], 200), st')

/-- `DELETE /reviews/<id>` (`delete_review`): a bare DELETE with the same
rowcount-based 204/404 decision.  No `try/except`. -/
def delete_review (id : Nat) (fail : Bool) (st : Store) : HResult :=
  if fail then none
  else
    let removed := (st.reviews.filter (fun r => r.review_id == id)).length
    let st' : Store :=
      { st with reviews := st.reviews.filter (fun r => !(r.review_id == id)) }
    if removed == 1 then some ((.str "", 204), st')
    else some ((REVIEW_NOT_FOUND, 404), st')

/-! ### Supporting lemmas -/

/-- `insertById` inserts its element somewhere in the list. -/
theorem insertById_perm (b : Business) : ∀ l : List Business,
    (insertById b l).Perm (b :: l)
  | [] => List.Perm.refl _
  | c :: cs => by
    rw [insertById]
    split
    · exact List.Perm.refl _
    · exact (List.Perm.cons c (insertById_perm b cs)).trans (List.Perm.swap b c cs)

/-- `sortById` permutes the table: the page really consists of table rows. -/
theorem sortById_perm (l : List Business) : (sortById l).Perm l := by
  induction l with
  | nil => exact List.Perm.refl _
  | cons b bs ih =>
    exact (insertById_perm b (sortById bs)).trans (List.Perm.cons b ih)

/-- Inserting into an id-sorted list keeps it id-sorted. -/
theorem insertById_pairwise (b : Business) (l : List Business)
    (h : l.Pairwise (fun x y => x.business_id ≤ y.business_id)) :
    (insertById b l).Pairwise (fun x y => x.business_id ≤ y.business_id) := by
  induction l with
  | nil => simp [insertById]
  | cons c cs ih =>
    rw [insertById]
    by_cases hb : b.business_id ≤ c.business_id
    · rw [if_pos hb]
      refine List.pairwise_cons.mpr ⟨?_, h⟩
      intro x hx
      rcases List.mem_cons.mp hx with hx | hx
      · exact hx ▸ hb
      · exact le_trans hb ((List.pairwise_cons.mp h).1 x hx)
    · rw [if_neg hb]
      refine List.pairwise_cons.mpr ⟨?_, ih (List.pairwise_cons.mp h).2⟩
      intro x hx
      rcases List.mem_cons.mp ((insertById_perm b cs).mem_iff.mp hx) with hx | hx
      · exact hx ▸ le_of_not_le hb
      · exact (List.pairwise_cons.mp h).1 x hx

/-- `sortById` models `ORDER BY business_id`: ascending ids. -/
theorem sortById_pairwise (l : List Business) :
    (sortById l).Pairwise (fun x y => x.business_id ≤ y.business_id) := by
  induction l with
  | nil => simp [sortById]
  | cons b bs ih => exact insertById_pairwise b (sortById bs) ih

/-- In a list whose keys are pairwise distinct, a satisfied keyed existence
check pins the matching-row count to exactly one (SQL primary-key rowcount). -/
theorem filter_key_length_eq_one {α : Type} (key : α → Nat) (id : Nat)
    (l : List α) (hp : l.Pairwise (fun a b => key a ≠ key b))
    (ha : l.any (fun x => key x == id) = true) :
    (l.filter (fun x => key x == id)).length = 1 := by
  induction l with
  | nil => simp at ha
  | cons a as ih =>
    by_cases hk : (key a == id) = true
    · have hkeq : key a = id := by simpa using hk
      have hnil : as.filter (fun x => key x == id) = [] := by
        refine List.filter_eq_nil_iff.mpr ?_
        intro x hx
        have hne := (List.pairwise_cons.mp hp).1 x hx
        simp only [beq_iff_eq]
        exact fun hxi => hne (by rw [hkeq, hxi])
      simp [List.filter_cons, hk, hnil]
    · have ha' : as.any (fun x => key x == id) = true := by
        rcases List.any_eq_true.mp ha with ⟨x, hx, hpx⟩
        rcases List.mem_cons.mp hx with hx | hx
        · exact absurd (hx ▸ hpx) (by simpa using hk)
        · exact List.any_eq_true.mpr ⟨x, hx, hpx⟩
      have := ih (List.pairwise_cons.mp hp).2 ha'
      simp [List.filter_cons, hk, this]

/-- In a list with pairwise-distinct keys, any member whose key matches the
searched one is the row that `find?` returned. -/
theorem find?_unique_key {α : Type} (key : α → Nat) (id : Nat) (l : List α)
    (row r : α) (hp : l.Pairwise (fun a b => key a ≠ key b))
    (hf : l.find? (fun x => key x == id) = some row)
    (hr : r ∈ l) (hid : key r = id) : r = row := by
  induction l with
  | nil => cases hr
  | cons a as ih =>
    rw [List.find?_cons] at hf
    by_cases ha : (key a == id) = true
    · simp [ha] at hf
      rcases List.mem_cons.mp hr with hr | hr
      · exact hr.trans hf
      · have hne := (List.pairwise_cons.mp hp).1 r hr
        have : key a = id := by simpa using ha
        exact absurd (this.trans hid.symm) hne
    · simp [ha] at hf
      rcases List.mem_cons.mp hr with hr | hr
      · exact absurd (by simpa using (hr ▸ hid)) (by simpa using ha)
      · exact ih (List.pairwise_cons.mp hp).2 hf hr

/-- A `find?` over rows none of which satisfies the predicate misses. -/
theorem find?_eq_none_of_lt (l : List Business) (n : Nat)
    (h : ∀ b ∈ l, b.business_id < n) :
    l.find? (fun b => b.business_id == n) = none := by
  refine List.find?_eq_none.mpr ?_
  intro b hb
  simp [Nat.ne_of_lt (h b hb)]

/-! ### Claims -/

/-- C1: creating a business with all six fields returns 201 with the record
(including the generated `id` and `self` URL), and a subsequent get on the
returned id returns 200 with the same fields plus `id` and `self`. -/
theorem create_then_get_business (root : String) (o : Int)
    (nm sa ci sta : String) (z : Int) (st : Store)
    (hfresh : ∀ b ∈ st.businesses, b.business_id < st.nextBusinessId) :
    let b : Business := ⟨st.nextBusinessId, o, nm, sa, ci, sta, z⟩
    let stNew : Store := { st with businesses := st.businesses ++ [b],
                                   nextBusinessId := st.nextBusinessId + 1 }
    create_business root ⟨some o, some nm, some sa, some ci, some sta, some z⟩
        false st = some ((businessRecord root b, 201), stNew) ∧
    get_business root st.nextBusinessId false stNew =
      some ((.obj [("owner_id", .num o),
                   ("name", .str nm),
                   ("street_address", .str sa),
                   ("city", .str ci),
                   ("state", .str sta),
                   ("zip_code", .num z),
                   ("id", .num st.nextBusinessId),
                   ("self", .str (businessUrl root st.nextBusinessId))], 200),
        stNew) := by
  intro b stNew
  refine ⟨rfl, ?_⟩
  have h1 : st.businesses.find? (fun x => x.business_id == st.nextBusinessId) = none :=
    find?_eq_none_of_lt st.businesses st.nextBusinessId hfresh
  simp [get_business, stNew, List.find?_append, h1, List.find?, b]

/-- C1 witness: the round trip at a concrete payload on the empty store. -/
theorem create_then_get_business_witness :
    let b : Business := ⟨1, 7, "Pizza", "1 Main St", "Salem", "OR", 97301⟩
    let stNew : Store := ⟨[b], [], 2, 1⟩
    create_business "http://h/" ⟨some 7, some "Pizza", some "1 Main St",
        some "Salem", some "OR", some 97301⟩ false ⟨[], [], 1, 1⟩ =
      some ((businessRecord "http://h/" b, 201), stNew) ∧
    get_business "http://h/" 1 false stNew =
      some ((.obj [("owner_id", .num 7),
                   ("name", .str "Pizza"),
                   ("street_address", .str "1 Main St"),
                   ("city", .str "Salem"),
                   ("state", .str "OR"),
                   ("zip_code", .num 97301),
                   ("id", .num 1),
                   ("self", .str (businessUrl "http://h/" 1))], 200), stNew) :=
  create_then_get_business "http://h/" 7 "Pizza" "1 Main St" "Salem" "OR" 97301
    ⟨[], [], 1, 1⟩ (by simp)

/-- C2: with a store satisfying the at-most-one-review-per-pair invariant, a
first Create-Review succeeds with 201; a second sequential call with the same
(`business_id`, `user_id`) returns 409 with the fixed duplicate body and
leaves the store unchanged, which then holds exactly one row for the pair and
still satisfies the invariant. -/
theorem duplicate_review_conflict (root : String) (u : Int) (bid : Nat)
    (s1 s2 : Int) (rt1 rt2 : Option String) (st : Store)
    (hbiz : st.businesses.any (fun b => b.business_id == bid) = true)
    (hnew : st.reviews.any (fun r => r.business_id == bid && r.user_id == u) = false)
    (hinv : ∀ b v, (st.reviews.filter
        (fun r => r.business_id == b && r.user_id == v)).length ≤ 1) :
    let rv : Review := ⟨st.nextReviewId, u, bid, s1, rt1.getD ""⟩
    let st1 : Store := { st with reviews := st.reviews ++ [rv],
                                 nextReviewId := st.nextReviewId + 1 }
    (∃ resp1, create_review root ⟨some u, some bid, some s1, rt1⟩ false st =
        some ((resp1, 201), st1)) ∧
    create_review root ⟨some u, some bid, some s2, rt2⟩ false st1 =
      some ((DUPLICATE_REVIEW, 409), st1) ∧
    (st1.reviews.filter (fun r => r.business_id == bid && r.user_id == u)).length = 1 ∧
    (∀ b v, (st1.reviews.filter
        (fun r => r.business_id == b && r.user_id == v)).length ≤ 1) := by
  intro rv st1
  have hmt : st.reviews.filter (fun r => r.business_id == bid && r.user_id == u) = [] := by
    refine List.filter_eq_nil_iff.mpr ?_
    intro r hr
    exact fun hc => absurd hc (by simpa using List.any_eq_false.mp hnew r hr)
  refine ⟨⟨.obj [("id", .num st.nextReviewId), ("user_id", .num u),
      ("business", .str (businessUrl root bid)), ("stars", .num s1),
      ("review_text", .str (rt1.getD "")),
      ("self", .str (reviewUrl root st.nextReviewId))], ?_⟩, ?_, ?_, ?_⟩
  · simp [create_review, hbiz, hnew, st1, rv]
  · have hdup : (st.reviews ++ [rv]).any
        (fun r => r.business_id == bid && r.user_id == u) = true :=
      List.any_eq_true.mpr ⟨rv, by simp, by simp [rv]⟩
    simp [create_review, st1, hbiz, hdup]
  · simp [st1, List.filter_append, hmt, rv]
  · intro b v
    simp only [st1, List.filter_append, List.length_append]
    by_cases hm : ((rv.business_id == b && rv.user_id == v) = true)
    · have hm' := hm
      simp only [Bool.and_eq_true, beq_iff_eq] at hm'
      have hb : bid = b := hm'.1
      have hv : u = v := hm'.2
      subst hb; subst hv
      simp [hmt, rv]
    · have : ([rv].filter (fun r => r.business_id == b && r.user_id == v)) = [] := by
        refine List.filter_eq_nil_iff.mpr ?_
        intro r hr
        rcases List.mem_singleton.mp hr with rfl
        exact fun hc => hm hc
      rw [this]
      simpa using hinv b v

/-- C2 witness: one business, two identical review submissions. -/
theorem duplicate_review_conflict_witness :
    let b : Business := ⟨1, 7, "Pizza", "1 Main St", "Salem", "OR", 97301⟩
    let st : Store := ⟨[b], [], 2, 1⟩
    let rv : Review := ⟨1, 4, 1, 5, (some "tasty").getD ""⟩
    let st1 : Store := { st with reviews := st.reviews ++ [rv],
                                 nextReviewId := 2 }
    (∃ resp1, create_review "http://h/" ⟨some 4, some 1, some 5, some "tasty"⟩
        false st = some ((resp1, 201), st1)) ∧
    create_review "http://h/" ⟨some 4, some 1, some 3, none⟩ false st1 =
      some ((DUPLICATE_REVIEW, 409), st1) ∧
    (st1.reviews.filter (fun r => r.business_id == 1 && r.user_id == 4)).length = 1 ∧
    (∀ b v, (st1.reviews.filter
        (fun r => r.business_id == b && r.user_id == v)).length ≤ 1) :=
  duplicate_review_conflict "http://h/" 4 1 5 3 (some "tasty") none
    ⟨[⟨1, 7, "Pizza", "1 Main St", "Salem", "OR", 97301⟩], [], 2, 1⟩
    (by decide) (by decide) (by intro b v; simp)

/-- C3 counterexample: Delete-Review is a mutating operation, yet an exception
raised during its DELETE is not surfaced as any status-500 response — the
handler has no `try/except`, so no response of the handler's making exists
(`none`), contradicting the claim at this input. -/
theorem store_failure_unhandled_cex :
    ¬ ∃ b st', delete_review 1 true ⟨[], [], 1, 1⟩ = some ((b, 500), st') := by
  rintro ⟨b, st', h⟩
  simp [delete_review] at h

/-- C3 amended: only Create-Business and Create-Review catch exceptions raised
during their transactions, returning the fixed non-leaking 500 body (a JSON
object with a single `Error` string key); the update and delete handlers let
store exceptions escape uncaught, producing no handler response at all. -/
theorem store_failure_handling (root : String) (id : Nat) (o : Int)
    (nm sa ci sta : String) (z : Int) (u : Int) (bid : Nat) (s : Int)
    (rt : Option String) (ub : Option Int) (st : Store) :
    create_business root ⟨some o, some nm, some sa, some ci, some sta, some z⟩
        true st = some ((UNABLE_CREATE, 500), st) ∧
    create_review root ⟨some u, some bid, some s, rt⟩ true st =
      some ((UNABLE_CREATE, 500), st) ∧
    UNABLE_CREATE = .obj [("Error", .str "Unable to create lodging")] ∧
    edit_business root id ⟨some o, some nm, some sa, some ci, some sta, some z⟩
        true st = none ∧
    delete_lodging id true st = none ∧
    edit_review root id ⟨ub, some s, rt⟩ true st = none ∧
    delete_review id true st = none :=
  ⟨rfl, rfl, rfl, rfl, rfl, rfl, rfl⟩

/-- C4: Get-All-Businesses always answers 200 with `{entries, next}`; the
entries are the id-ordered table restricted by `LIMIT limit OFFSET offset`,
`next` is null exactly when fewer than `limit` rows came back, and otherwise
`next` is the listing URL with the offset advanced by `limit`. -/
theorem get_all_businesses_pagination (root : String) (offset limit : Nat)
    (st : Store) :
    ∃ entries nxt,
      get_all_businesses root offset limit false st =
        some ((.obj [("entries", .arr entries), ("next", nxt)], 200), st) ∧
      entries = (((sortById st.businesses).drop offset).take limit).map
        (businessRecord root) ∧
      (nxt = JVal.null ↔ entries.length < limit) ∧
      (limit ≤ entries.length →
        nxt = .str (nextUrl root limit (offset + limit))) := by
  refine ⟨_, _, rfl, rfl, ?_, ?_⟩
  · by_cases h : ((((sortById st.businesses).drop offset).take limit).map
        (businessRecord root)).length < limit
    · simp [h]
    · simp [h]
  · intro h
    rw [if_neg (by omega)]

/-- C5: Create-Review validates in order — missing required field → 400;
nonexistent business → 404 with no row inserted; duplicate (business, user)
pair → 409 with the fixed body and no row inserted; both checks passing →
insert and 201. -/
theorem create_review_validation_order (root : String) (u : Int) (bid : Nat)
    (s : Int) (rt : Option String) (st : Store) :
    (∀ body : ReviewBody,
        body.user_id = none ∨ body.business_id = none ∨ body.stars = none →
        create_review root body false st = some ((MISSING_ATTR, 400), st)) ∧
    (st.businesses.any (fun b => b.business_id == bid) = false →
        create_review root ⟨some u, some bid, some s, rt⟩ false st =
          some ((BUSINESS_NOT_FOUND, 404), st)) ∧
    (st.businesses.any (fun b => b.business_id == bid) = true →
      st.reviews.any (fun r => r.business_id == bid && r.user_id == u) = true →
        create_review root ⟨some u, some bid, some s, rt⟩ false st =
          some ((DUPLICATE_REVIEW, 409), st)) ∧
    (st.businesses.any (fun b => b.business_id == bid) = true →
      st.reviews.any (fun r => r.business_id == bid && r.user_id == u) = false →
        create_review root ⟨some u, some bid, some s, rt⟩ false st =
          some ((.obj [("id", .num st.nextReviewId),
                       ("user_id", .num u),
                       ("business", .str (businessUrl root bid)),
                       ("stars", .num s),
                       ("review_text", .str (rt.getD "")),
                       ("self", .str (reviewUrl root st.nextReviewId))], 201),
            { st with
                reviews := st.reviews ++ [⟨st.nextReviewId, u, bid, s, rt.getD ""⟩],
                nextReviewId := st.nextReviewId + 1 })) := by
  refine ⟨?_, ?_, ?_, ?_⟩
  · rintro ⟨bu, bb, bs, brt⟩ h
    rcases h with h | h | h <;> cases bu <;> cases bb <;> cases bs <;>
      simp_all [create_review]
  · intro h
    simp [create_review, h]
  · intro h1 h2
    simp [create_review, h1, h2]
  · intro h1 h2
    simp [create_review, h1, h2]

/-- C5 witness: the four branches exercised on concrete stores. -/
theorem create_review_validation_order_witness :
    let b : Business := ⟨1, 7, "Pizza", "1 Main St", "Salem", "OR", 97301⟩
    let stB : Store := ⟨[b], [], 2, 1⟩
    let stBR : Store := ⟨[b], [⟨1, 4, 1, 5, "tasty"⟩], 2, 2⟩
    create_review "http://h/" ⟨none, some 1, some 5, none⟩ false stB =
      some ((MISSING_ATTR, 400), stB) ∧
    create_review "http://h/" ⟨some 4, some 9, some 5, none⟩ false stB =
      some ((BUSINESS_NOT_FOUND, 404), stB) ∧
    create_review "http://h/" ⟨some 4, some 1, some 3, none⟩ false stBR =
      some ((DUPLICATE_REVIEW, 409), stBR) ∧
    create_review "http://h/" ⟨some 4, some 1, some 5, some "tasty"⟩ false stB =
      some ((.obj [("id", .num 1),
                   ("user_id", .num 4),
                   ("business", .str (businessUrl "http://h/" 1)),
                   ("stars", .num 5),
                   ("review_text", .str "tasty"),
                   ("self", .str (reviewUrl "http://h/" 1))], 201),
        { stB with reviews := [⟨1, 4, 1, 5, "tasty"⟩], nextReviewId := 2 }) := by
  refine ⟨?_, ?_, ?_, ?_⟩
  · exact (create_review_validation_order "http://h/" 4 1 5 none
      ⟨[⟨1, 7, "Pizza", "1 Main St", "Salem", "OR", 97301⟩], [], 2, 1⟩).1
      ⟨none, some 1, some 5, none⟩ (Or.inl rfl)
  · exact (create_review_validation_order "http://h/" 4 9 5 none
      ⟨[⟨1, 7, "Pizza", "1 Main St", "Salem", "OR", 97301⟩], [], 2, 1⟩).2.1
      (by decide)
  · exact (create_review_validation_order "http://h/" 4 1 3 none
      ⟨[⟨1, 7, "Pizza", "1 Main St", "Salem", "OR", 97301⟩],
       [⟨1, 4, 1, 5, "tasty"⟩], 2, 2⟩).2.2.1 (by decide) (by decide)
  · exact (create_review_validation_order "http://h/" 4 1 5 (some "tasty")
      ⟨[⟨1, 7, "Pizza", "1 Main St", "Salem", "OR", 97301⟩], [], 2, 1⟩).2.2.2
      (by decide) (by decide)

/-- Updating the matched row's `review_text` to the value `find?` returned for
it leaves every stored `review_text` unchanged (distinct primary keys). -/
theorem reviewText_preserved (l : List Review) (id : Nat) (row : Review)
    (s : Int) (hp : l.Pairwise (fun a b => a.review_id ≠ b.review_id))
    (hf : l.find? (fun r => r.review_id == id) = some row) :
    (l.map (fun r =>
        if r.review_id == id then { r with stars := s, review_text := row.review_text }
        else r)).map (fun r => r.review_text) = l.map (fun r => r.review_text) := by
  rw [List.map_map]
  refine List.map_congr_left ?_
  intro r hr
  by_cases h : (r.review_id == id) = true
  · have heq : r = row :=
      find?_unique_key Review.review_id id l row r hp hf hr (by simpa using h)
    subst heq
    simp [Function.comp, h]
  · simp [Function.comp, h]

/-- C6: Edit-Review with `stars` but no `review_text` preserves every stored
`review_text` (read-before-write); Edit-Review without `stars` returns 400 and
mutates nothing. -/
theorem edit_review_frame (root : String) (id : Nat) (ub1 ub2 : Option Int)
    (s : Int) (rt : Option String) (st : Store)
    (hp : st.reviews.Pairwise (fun a b => a.review_id ≠ b.review_id)) :
    (∀ res st', edit_review root id ⟨ub1, some s, none⟩ false st = some (res, st') →
        st'.reviews.map (fun r => r.review_text) =
          st.reviews.map (fun r => r.review_text)) ∧
    edit_review root id ⟨ub2, none, rt⟩ false st =
      some ((MISSING_ATTR, 400), st) := by
  refine ⟨?_, rfl⟩
  intro res st' h
  cases hf : st.reviews.find? (fun r => r.review_id == id) with
  | none =>
    simp only [edit_review, hf] at h
    obtain ⟨-, rfl⟩ := h
    rfl
  | some row =>
    simp only [edit_review, hf, Option.getD_none, Option.some.injEq,
      Prod.mk.injEq] at h
    obtain ⟨-, rfl⟩ := h
    exact reviewText_preserved st.reviews id row s hp hf

/-- C6 witness: a one-review store, edited with and without `stars`. -/
theorem edit_review_frame_witness :
    let st : Store := ⟨[⟨1, 7, "P", "A", "C", "OR", 1⟩], [⟨1, 4, 1, 5, "old"⟩], 2, 2⟩
    (∀ res st', edit_review "http://h/" 1 ⟨some 9, some 2, none⟩ false st =
        some (res, st') →
        st'.reviews.map (fun r => r.review_text) =
          st.reviews.map (fun r => r.review_text)) ∧
    edit_review "http://h/" 1 ⟨some 9, none, some "new"⟩ false st =
      some ((MISSING_ATTR, 400), st) :=
  edit_review_frame "http://h/" 1 (some 9) (some 9) 2 (some "new")
    ⟨[⟨1, 7, "P", "A", "C", "OR", 1⟩], [⟨1, 4, 1, 5, "old"⟩], 2, 2⟩
    (by simp)

/-- C7: both deletes decide existence purely by DELETE rowcount — a matching
row yields 204 with an empty body (businesses cascading their reviews), no
matching row yields the entity-specific 404 with the store untouched. -/
theorem delete_by_rowcount (id : Nat) (st : Store)
    (hb : st.businesses.Pairwise (fun a b => a.business_id ≠ b.business_id))
    (hr : st.reviews.Pairwise (fun a b => a.review_id ≠ b.review_id)) :
    (st.businesses.any (fun b => b.business_id == id) = true →
      delete_lodging id false st =
        some ((.str "", 204),
          { st with
              businesses := st.businesses.filter (fun b => !(b.business_id == id)),
              reviews := st.reviews.filter (fun r => !(r.business_id == id)) })) ∧
    (st.businesses.any (fun b => b.business_id == id) = false →
      delete_lodging id false st = some ((BUSINESS_NOT_FOUND, 404), st)) ∧
    (st.reviews.any (fun r => r.review_id == id) = true →
      delete_review id false st =
        some ((.str "", 204),
          { st with reviews := st.reviews.filter (fun r => !(r.review_id == id)) })) ∧
    (st.reviews.any (fun r => r.review_id == id) = false →
      delete_review id false st = some ((REVIEW_NOT_FOUND, 404), st)) := by
  refine ⟨?_, ?_, ?_, ?_⟩
  · intro h
    have h1 : (st.businesses.filter (fun b => b.business_id == id)).length = 1 :=
      filter_key_length_eq_one Business.business_id id st.businesses hb h
    simp [delete_lodging, h1]
  · intro h
    have h0 : st.businesses.filter (fun b => b.business_id == id) = [] :=
      List.filter_eq_nil_iff.mpr (fun b hbm => by
        simpa using List.any_eq_false.mp h b hbm)
    have hkeep : st.businesses.filter (fun b => !(b.business_id == id)) =
        st.businesses :=
      List.filter_eq_self.mpr (fun b hbm => by
        simpa using List.any_eq_false.mp h b hbm)
    simp [delete_lodging, h0, hkeep]
  · intro h
    have h1 : (st.reviews.filter (fun r => r.review_id == id)).length = 1 :=
      filter_key_length_eq_one Review.review_id id st.reviews hr h
    simp [delete_review, h1]
  · intro h
    have h0 : st.reviews.filter (fun r => r.review_id == id) = [] :=
      List.filter_eq_nil_iff.mpr (fun r hrm => by
        simpa using List.any_eq_false.mp h r hrm)
    have hkeep : st.reviews.filter (fun r => !(r.review_id == id)) = st.reviews :=
      List.filter_eq_self.mpr (fun r hrm => by
        simpa using List.any_eq_false.mp h r hrm)
    simp [delete_review, h0, hkeep]

/-- C7 witness: deletes of existing and nonexistent ids on concrete stores. -/
theorem delete_by_rowcount_witness :
    let st : Store := ⟨[⟨1, 7, "P", "A", "C", "OR", 1⟩], [⟨1, 4, 1, 5, "old"⟩], 2, 2⟩
    delete_lodging 1 false st =
      some ((.str "", 204), { st with businesses := [], reviews := [] }) ∧
    delete_lodging 9 false st = some ((BUSINESS_NOT_FOUND, 404), st) ∧
    delete_review 1 false st =
      some ((.str "", 204), { st with reviews := [] }) ∧
    delete_review 9 false st = some ((REVIEW_NOT_FOUND, 404), st) := by
  have h := delete_by_rowcount 1
    ⟨[⟨1, 7, "P", "A", "C", "OR", 1⟩], [⟨1, 4, 1, 5, "old"⟩], 2, 2⟩
    (by simp) (by simp)
  have h9 := delete_by_rowcount 9
    ⟨[⟨1, 7, "P", "A", "C", "OR", 1⟩], [⟨1, 4, 1, 5, "old"⟩], 2, 2⟩
    (by simp) (by simp)
  exact ⟨h.1 (by decide), h9.2.1 (by decide), h.2.2.1 (by decide),
    h9.2.2.2 (by decide)⟩

/-- C8: a Create-Business or Update-Business body missing any of the six
required keys draws the fixed 400 error, whichever key is missing, with the
store untouched. -/
theorem missing_business_field_400 (root : String) (id : Nat)
    (body : BusinessBody) (fail : Bool) (st : Store)
    (h : body.owner_id = none ∨ body.name = none ∨ body.street_address = none ∨
         body.city = none ∨ body.state = none ∨ body.zip_code = none) :
    create_business root body fail st = some ((MISSING_ATTR, 400), st) ∧
    edit_business root id body fail st = some ((MISSING_ATTR, 400), st) := by
  obtain ⟨o, nm, sa, ci, sta, z⟩ := body
  cases o <;> cases nm <;> cases sa <;> cases ci <;> cases sta <;> cases z <;>
    simp_all [create_business, edit_business]

/-- C8 witness: a body missing only `name` is rejected by both handlers. -/
theorem missing_business_field_400_witness :
    create_business "http://h/" ⟨some 1, none, some "A", some "C", some "OR", some 2⟩
        false ⟨[], [], 1, 1⟩ = some ((MISSING_ATTR, 400), ⟨[], [], 1, 1⟩) ∧
    edit_business "http://h/" 1 ⟨some 1, none, some "A", some "C", some "OR", some 2⟩
        false ⟨[], [], 1, 1⟩ = some ((MISSING_ATTR, 400), ⟨[], [], 1, 1⟩) :=
  missing_business_field_400 "http://h/" 1
    ⟨some 1, none, some "A", some "C", some "OR", some 2⟩ false ⟨[], [], 1, 1⟩
    (Or.inr (Or.inl rfl))

/-- C9: a successful Edit-Review answers with the stored row's `user_id` —
whatever `user_id` the body carries — alongside the updated `stars` and
`review_text` and the computed `business` and `self` URLs. -/
theorem edit_review_returns_stored_user (root : String) (id : Nat)
    (ub : Option Int) (s : Int) (rt : Option String) (st : Store) (row : Review)
    (hf : st.reviews.find? (fun r => r.review_id == id) = some row) :
    edit_review root id ⟨ub, some s, rt⟩ false st =
      some ((.obj [("id", .num id),
                   ("user_id", .num row.user_id),
                   ("business", .str (businessUrl root row.business_id)),
                   ("stars", .num s),
                   ("review_text", .str (rt.getD row.review_text)),
                   ("self", .str (reviewUrl root id))], 200),
        { st with reviews := st.reviews.map (fun r =>
            if r.review_id == id then
              { r with stars := s, review_text := rt.getD row.review_text }
            else r) }) := by
  simp [edit_review, hf]

/-- C9 witness: the body claims `user_id = 99`, the response keeps 4. -/
theorem edit_review_returns_stored_user_witness :
    let st : Store := ⟨[⟨1, 7, "P", "A", "C", "OR", 1⟩], [⟨1, 4, 1, 5, "old"⟩], 2, 2⟩
    edit_review "http://h/" 1 ⟨some 99, some 2, none⟩ false st =
      some ((.obj [("id", .num 1),
                   ("user_id", .num 4),
                   ("business", .str (businessUrl "http://h/" 1)),
                   ("stars", .num 2),
                   ("review_text", .str "old"),
                   ("self", .str (reviewUrl "http://h/" 1))], 200),
        { st with reviews := [⟨1, 4, 1, 2, "old"⟩] }) := by
  have h := edit_review_returns_stored_user "http://h/" 1 (some 99) 2 none
    ⟨[⟨1, 7, "P", "A", "C", "OR", 1⟩], [⟨1, 4, 1, 5, "old"⟩], 2, 2⟩
    ⟨1, 4, 1, 5, "old"⟩ rfl
  simpa using h

/-- C10: with `limit = 0` the fewer-than-limit test can never fire, so the
response is an empty page whose `next` link carries the same `offset` and
`limit` as the request — following it reproduces the request. -/
theorem get_all_limit_zero (root : String) (offset : Nat) (st : Store) :
    get_all_businesses root offset 0 false st =
      some ((.obj [("entries", .arr []), ("next", .str (nextUrl root 0 offset))],
        200), st) := by
  simp [get_all_businesses]
